import Mathlib

/-!
# Verification of the RobotSpareBin order-automation script (`src/tasks.py`)

Shallow embedding of the pipeline in `tasks.py`.  Browser interactions are
modelled as an explicit trace of actions, the filesystem as lists of directory
and file paths with overwrite-on-collision semantics, logging as a list of log
entries, and the behaviour of the remote page (danger-alert visibility after
each click of the submit button, the text of the success badge, injected
browser failures) as an environment the functions are parameterised over.

Python's unbounded recursion in `click_order_button_with_retry` is modelled
with explicit fuel: a `none` result means the call did not return within the
given fuel, and a result that is `none` for every fuel is a non-terminating
run.
-/

namespace RobotOrder

/-- One row of the downloaded order table (columns Head, Body, Legs, Address).
All cells are read back as strings by the script (`str(row["Head"])` etc.). -/
structure OrderRow where
  head : String
  body : String
  legs : String
  address : String
deriving DecidableEq

/-- The argument that `click_order_button_with_retry` receives in its `row`
parameter: the original pandas row on the external call, but a plain integer
on the recursive call (which passes `count + 1` positionally as `row`). -/
inductive RowArg where
  | row (r : OrderRow)
  | num (n : Nat)
deriving DecidableEq

/-- Browser actions, in the order the script performs them. -/
inductive BAction where
  | goto (url : String)
  | click (selector : String)
  | selectOption (selector value : String)
  | check (selector : String)
  | fill (selector value : String)
  | textContent (selector : String)
  | screenshot (selector path : String)
  | innerHtml (selector : String)
  | closePage
deriving DecidableEq

/-- Log messages emitted by the script (`logging.error` / `logging.info`). -/
inductive LogEntry where
  | errorClickRetry (arg : RowArg)
  | infoReceiptSaved (orderNumber : String)
  | infoArchived
  | infoCleanup
  | errorCleanup
deriving DecidableEq

/-- Behaviour of the order page for one row: whether the danger alert is
visible after the k-th click of the submit button (k counted from 1), the
text of the success badge, and whether opening the page raises. -/
structure PageEnv where
  alertVisible : Nat → Bool
  badgeText : String
  raiseError : Bool

/-- Exceptions that can propagate out of a pipeline stage. -/
inductive PyError where
  | httpError
  | browserError
  | archiveError
  | rmtreeError
deriving DecidableEq

def ORDER_URL : String := "https://robotsparebinindustries.com/#/robot-order"

def MAX_RETRIES : Nat := 3

/-- XPath of the submit button clicked by the retry helper. -/
def orderButtonSel : String := "//button[@id=\x27order\x27]"

/-- Embeds `click_order_button_with_retry(row, count=0)`.

The source clicks the order button, then returns (logging an error naming
`row`) if `count > MAX_RETRIES`, and otherwise recurses when the danger alert
is visible — but the recursive call is `click_order_button_with_retry(count + 1)`,
so `count + 1` is bound to the `row` parameter and `count` keeps its default 0.

State threaded through: `clicks` = clicks performed so far on this page (used
to index `env.alertVisible`), `tr` = browser-action trace, `lg` = log.
`none` means the call did not return within `fuel` recursive activations. -/
def click_order_button_with_retry (env : PageEnv) :
    Nat → RowArg → Nat → Nat → List BAction → List LogEntry →
    Option (Nat × List BAction × List LogEntry)
  | 0, _, _, _, _, _ => none
  | fuel + 1, rowArg, count, clicks, tr, lg =>
    let clicks' := clicks + 1
    let tr' := tr ++ [BAction.click orderButtonSel]
    if count > MAX_RETRIES then
      some (clicks', tr', lg ++ [LogEntry.errorClickRetry rowArg])
    else if env.alertVisible clicks' then
      click_order_button_with_retry env fuel (RowArg.num (count + 1)) 0 clicks' tr' lg
    else
      some (clicks', tr', lg)

/-- The log component of a retry result (`[]` when the call never returned). -/
def resLog : Option (Nat × List BAction × List LogEntry) → List LogEntry
  | none => []
  | some (_, _, lg) => lg

/-- Page environment in which the danger alert is visible after every click. -/
def envAlways : PageEnv :=
  { alertVisible := fun _ => true, badgeText := "", raiseError := false }

/-- Page environment in which the danger alert is visible after each of the
first three clicks and absent after the fourth. -/
def env134 : PageEnv :=
  { alertVisible := fun k => decide (k ≤ 3), badgeText := "X", raiseError := false }

/-- A sample order row. -/
def row0 : OrderRow := { head := "1", body := "2", legs := "3", address := "A" }

/-- Filesystem model: the sets of existing directory and file paths.
Writing a path that already exists overwrites it, so insertion is
idempotent on the path set. -/
structure FSState where
  dirs : List String
  files : List String
deriving DecidableEq

/-- Create a path if it does not exist yet (`os.makedirs(..., exist_ok=True)`
for directories, overwrite-on-collision for files). -/
def fsInsert (ps : List String) (p : String) : List String :=
  if p ∈ ps then ps else ps ++ [p]

/-- Embeds `fill_the_form_for_one_order(row)`: the four field interactions,
the submit click (via the retry helper, which receives the row and the
default `count = 0`), and the read-back of the success badge text.
`none` propagates non-termination of the retry helper. -/
def fill_the_form_for_one_order (env : PageEnv) (fuel : Nat) (row : OrderRow)
    (tr : List BAction) (lg : List LogEntry) :
    Option (String × List BAction × List LogEntry) :=
  let tr := tr ++
    [BAction.selectOption "//select[@id=\x27head\x27]" row.head,
     BAction.check ("//input[@id=\x27id-body-" ++ row.body ++ "\x27]"),
     BAction.fill "//div[contains(label, \x27Legs\x27)]//input" row.legs,
     BAction.fill "//input[@id=\x27address\x27]" row.address]
  match click_order_button_with_retry env fuel (RowArg.row row) 0 0 tr lg with
  | none => none
  | some (_, tr, lg) =>
    (some (env.badgeText, tr ++ [BAction.textContent "//p[@class=\x27badge badge-success\x27]"], lg))

/-- Path of the screenshot written for order number `n`
(`temp/receipts_images/robot_{n}.png`). -/
def imgPath (n : String) : String := "temp/receipts_images/robot_" ++ n ++ ".png"

/-- Path of the plain receipt PDF for order number `n`
(`temp/receipts/receipt_{n}.pdf`). -/
def pdfPath (n : String) : String := "temp/receipts/receipt_" ++ n ++ ".pdf"

/-- Path of the receipt PDF with the embedded robot image for order number `n`
(`temp/receipts/receipt_{n}_with_robot_image.pdf`). -/
def pdf2Path (n : String) : String :=
  "temp/receipts/receipt_" ++ n ++ "_with_robot_image.pdf"

/-- Embeds `save_receipt_as_image(order_number)`: screenshot the preview
element to `temp/receipts_images/robot_{n}.png` and return that path. -/
def save_receipt_as_image (orderNumber : String) (fs : FSState) (tr : List BAction) :
    String × FSState × List BAction :=
  let outputPath := imgPath orderNumber
  (outputPath,
   { fs with files := fsInsert fs.files outputPath },
   tr ++ [BAction.screenshot "//div[@id=\x27robot-preview-image\x27]" outputPath])

/-- Embeds `store_receipt_as_pdf(order_number, image_path)`: read the receipt
HTML, write `receipt_{n}.pdf` (`html_to_pdf`), then write
`receipt_{n}_with_robot_image.pdf` (`add_watermark_image_to_pdf` reading
`image_path`), and log the info message. -/
def store_receipt_as_pdf (orderNumber : String) (imagePath : String)
    (fs : FSState) (tr : List BAction) (lg : List LogEntry) :
    FSState × List BAction × List LogEntry :=
  let _ := imagePath
  let tr := tr ++ [BAction.innerHtml "//div[@id=\x27receipt\x27]"]
  let fs := { fs with
    files := fsInsert (fsInsert fs.files (pdfPath orderNumber)) (pdf2Path orderNumber) }
  (fs, tr, lg ++ [LogEntry.infoReceiptSaved orderNumber])

/-- Embeds `close_annoying_modal()`: click the consent dialog's OK button. -/
def close_annoying_modal (tr : List BAction) : List BAction :=
  tr ++ [BAction.click "//button[@class=\x27btn btn-dark\x27]"]

/-- Embeds `fill_the_form_and_store_receipts(orders)`: per row, create the two
temp directories (with parents, `exist_ok=True`), open the order page, dismiss
the modal, fill and submit the form, store image and PDFs, close the page.
`envs i` is the page behaviour for the row at position `i`.  A result
`some (fs, tr, lg, Except.error e)` models an exception `e` raised while
processing a row (injected at `browser.goto`) that propagates out of the
loop with the state accumulated so far; `none` models non-termination. -/
def fill_the_form_and_store_receipts (envs : Nat → PageEnv) (fuel : Nat) :
    List OrderRow → Nat → FSState → List BAction → List LogEntry →
    Option (FSState × List BAction × List LogEntry × Except PyError Unit)
  | [], _, fs, tr, lg => some (fs, tr, lg, Except.ok ())
  | row :: rest, i, fs, tr, lg =>
    let fs := { fs with
      dirs := fsInsert (fsInsert (fsInsert fs.dirs "temp") "temp/receipts")
        "temp/receipts_images" }
    let tr := tr ++ [BAction.goto ORDER_URL]
    if (envs i).raiseError then
      some (fs, tr, lg, Except.error PyError.browserError)
    else
      let tr := close_annoying_modal tr
      match fill_the_form_for_one_order (envs i) fuel row tr lg with
      | none => none
      | some (orderNumber, tr, lg) =>
        let (imagePath, fs, tr) := save_receipt_as_image orderNumber fs tr
        let (fs, tr, lg) := store_receipt_as_pdf orderNumber imagePath fs tr lg
        let tr := tr ++ [BAction.closePage]
        fill_the_form_and_store_receipts envs fuel rest (i + 1) fs tr lg

/-- Whether the first character list is an initial segment of the second. -/
def charsPre : List Char → List Char → Bool
  | [], _ => true
  | _ :: _, [] => false
  | a :: pre, b :: l => a == b && charsPre pre l

/-- Whether the string starts with the given front part. -/
def strStarts (p front : String) : Bool := charsPre front.data p.data

/-- Whether the string ends with the given extension. -/
def strEnds (p ext : String) : Bool := charsPre ext.data.reverse p.data.reverse

/-- Whether a path is a `*.pdf` file under `temp/receipts` (recursively). -/
def isReceiptPdf (p : String) : Bool :=
  strStarts p "temp/receipts/" && strEnds p ".pdf"

/-- Modelled from the spec: `RPA.Archive.archive_folder_with_zip(folder,
archive_name, recursive=True, include="*.pdf")` is a third-party library call
whose source is not in this repository; per the spec it "zips every `*.pdf`
file under the receipts temp directory into one output archive, recursively",
i.e. the member set of the produced archive is exactly the `*.pdf` files
under the folder at call time. -/
def archive_folder_with_zip (files : List String) : List String :=
  files.filter isReceiptPdf

/-- Embeds `archive_receipts()`: archive the `*.pdf` files under
`temp/receipts` into `output/receipts.zip` and log the info message.
Returns the member list of the archive. -/
def archive_receipts (fs : FSState) (lg : List LogEntry) :
    List String × List LogEntry :=
  (archive_folder_with_zip fs.files, lg ++ [LogEntry.infoArchived])

/-- Environment of one whole run: HTTP status of the order-list fetch, the
parsed rows on success, the page behaviour for each row position, whether the
archive step raises, whether `shutil.rmtree("temp")` raises, and the fuel
bounding the retry helper's recursion depth. -/
structure RunEnv where
  httpStatus : Nat
  rows : List OrderRow
  pageEnvs : Nat → PageEnv
  archiveRaises : Bool
  rmtreeFails : Bool
  fuel : Nat

/-- Modelled from the spec for `requests.Response.raise_for_status`: the spec
says the fetch "fails loudly (propagates) on non-2xx response". -/
def is2xx (status : Nat) : Bool := decide (200 ≤ status) && decide (status < 300)

/-- Embeds `get_orders()`: HTTP GET of the CSV URL, `raise_for_status`, parse
into rows.  Propagates `HTTPError` on a non-2xx response. -/
def get_orders (env : RunEnv) : Except PyError (List OrderRow) :=
  if is2xx env.httpStatus then Except.ok env.rows else Except.error PyError.httpError

/-- Remove the directory `temp` and everything below it. -/
def removeTemp (fs : FSState) : FSState :=
  { dirs := fs.dirs.filter (fun d => !(d == "temp" || strStarts d "temp/")),
    files := fs.files.filter (fun f => !(strStarts f "temp/")) }

/-- Embeds `cleanup()`: if the path `temp` exists, `shutil.rmtree("temp")` and
log the info message; any exception from the deletion (modelled by
`env.rmtreeFails`) is caught and logged, never propagated. -/
def cleanup (env : RunEnv) (fs : FSState) (lg : List LogEntry) :
    FSState × List LogEntry :=
  if "temp" ∈ fs.dirs then
    if env.rmtreeFails then (fs, lg ++ [LogEntry.errorCleanup])
    else (removeTemp fs, lg ++ [LogEntry.infoCleanup])
  else (fs, lg)

/-- Observable outcome of one run of the top-level task: final filesystem,
browser-action trace, log, the member list of `output/receipts.zip` (`none`
when never created), a snapshot of the filesystem at the moment
`archive_receipts` was invoked (`none` when never invoked), whether `cleanup`
was invoked, and the propagated exception if any. -/
structure RunResult where
  fs : FSState
  trace : List BAction
  log : List LogEntry
  zip : Option (List String)
  archiveFs : Option FSState
  cleanupInvoked : Bool
  outcome : Except PyError Unit

/-- The `finally` block of the top-level task: run `cleanup` on the state,
then package the run's outcome. -/
def finish (env : RunEnv) (fs : FSState) (tr : List BAction) (lg : List LogEntry)
    (zip : Option (List String)) (archiveFs : Option FSState)
    (outcome : Except PyError Unit) : RunResult :=
  { fs := (cleanup env fs lg).1, trace := tr, log := (cleanup env fs lg).2,
    zip := zip, archiveFs := archiveFs, cleanupInvoked := true, outcome := outcome }

/-- Embeds the top-level task `order_robots_from_RobotSpareBin()`:
`try: get_orders; fill_the_form_and_store_receipts; archive_receipts
finally: cleanup`.  Whatever the try block does — succeed, or raise in the
fetch, in the per-row loop, or in the archive step — `cleanup` runs and the
try block's exception (if any) is the one propagated.  `none` models the run
never finishing because the retry helper recursed without returning. -/
def order_robots_from_RobotSpareBin (env : RunEnv) : Option RunResult :=
  match get_orders env with
  | Except.error e => some (finish env ⟨[], []⟩ [] [] none none (Except.error e))
  | Except.ok rows =>
    match fill_the_form_and_store_receipts env.pageEnvs env.fuel rows 0 ⟨[], []⟩ [] [] with
    | none => none
    | some (fs, tr, lg, Except.error e) =>
      some (finish env fs tr lg none none (Except.error e))
    | some (fs, tr, lg, Except.ok ()) =>
      if env.archiveRaises then
        some (finish env fs tr lg none (some fs) (Except.error PyError.archiveError))
      else
        let (members, lg) := archive_receipts fs lg
        let fs' := { fs with files := fsInsert fs.files "output/receipts.zip" }
        some (finish env fs' tr lg (some members) (some fs) (Except.ok ()))

/-- Page environment of a plainly successful submission: the danger alert is
never visible and the badge reads "1". -/
def envOK1 : PageEnv :=
  { alertVisible := fun _ => false, badgeText := "1", raiseError := false }

/-- Page environment of a submission that completes but leaves the badge
empty. -/
def envOKEmpty : PageEnv :=
  { alertVisible := fun _ => false, badgeText := "", raiseError := false }

/-- A fully successful one-row run. -/
def envRunOK : RunEnv :=
  { httpStatus := 200, rows := [row0], pageEnvs := fun _ => envOK1,
    archiveRaises := false, rmtreeFails := false, fuel := 5 }

/-- A one-row run in which `shutil.rmtree("temp")` raises during cleanup. -/
def envTempRemains : RunEnv := { envRunOK with rmtreeFails := true }

/-- A run whose order-list fetch returns HTTP 500. -/
def env500 : RunEnv := { envRunOK with httpStatus := 500 }

/-- A run whose downloaded order table has zero rows. -/
def envNoRows : RunEnv := { envRunOK with rows := [] }

/-- Whether a browser action sets a form field (select, check or fill). -/
def BAction.isFieldSet : BAction → Bool
  | BAction.selectOption _ _ => true
  | BAction.check _ => true
  | BAction.fill _ _ => true
  | _ => false

/-- The field-setting actions of a trace, in order. -/
def fieldActions (tr : List BAction) : List BAction := tr.filter BAction.isFieldSet

/-- The CSV row of claim C8. -/
def row8 : OrderRow :=
  { head := "2", body := "3", legs := "4", address := "Evergreen 123" }

/-- A page environment for exercising the form driver: no danger alert, badge
text "RSB-7". -/
def env8 : PageEnv :=
  { alertVisible := fun _ => false, badgeText := "RSB-7", raiseError := false }

/-- The concrete result of the form driver on `row8` in `env8`. -/
def run8 : String × List BAction × List LogEntry :=
  (fill_the_form_for_one_order env8 3 row8 [] []).getD ("", [], [])

/-- The run result when the order-list fetch fails: empty filesystem, no
browser actions, no log, no archive, cleanup invoked, `HTTPError`
propagated. -/
def fetchFailResult : RunResult :=
  { fs := ⟨[], []⟩, trace := [], log := [], zip := none, archiveFs := none,
    cleanupInvoked := true, outcome := Except.error PyError.httpError }

/-- The run result when the order table has zero rows: no browser actions, no
temp directories ever created, the archive invoked on the empty filesystem
(so `temp/receipts` does not exist at archive time) producing an empty ZIP. -/
def emptyOrdersResult : RunResult :=
  { fs := ⟨[], ["output/receipts.zip"]⟩, trace := [],
    log := [LogEntry.infoArchived], zip := some [],
    archiveFs := some ⟨[], []⟩, cleanupInvoked := true,
    outcome := Except.ok () }

/-- The result of a terminating run (defaulting to `fetchFailResult`, used
only to name concrete results in closed statements). -/
def runOf (env : RunEnv) : RunResult :=
  (order_robots_from_RobotSpareBin env).getD fetchFailResult

/-! ### Definitions for counting the artifacts a run produces -/

/-- Recover the order number from an image path: strip the 27-character
directory-and-stem `temp/receipts_images/robot_` and the 4-character
extension `.png`. -/
def imgOrder (p : String) : String :=
  String.mk ((p.data.drop 27).take ((p.data.drop 27).length - 4))

/-- Whether a path has the shape `temp/receipts_images/robot_{n}.png` of a
receipt image. -/
def isImgFile (p : String) : Bool := p == imgPath (imgOrder p)

/-- The number of receipt images present. -/
def imageCount (files : List String) : Nat :=
  (files.filter (fun p => isImgFile p)).length

/-- The number of PDF+image pairs present: receipt images whose matching
with-robot-image PDF is also present. -/
def pairCount (files : List String) : Nat :=
  (files.filter
    (fun p => isImgFile p && decide (pdf2Path (imgOrder p) ∈ files))).length

/-- The badge texts the page environments produce for the `k` rows starting
at position `i`. -/
def badgesFrom (envs : Nat → PageEnv) (i : Nat) : Nat → List String
  | 0 => []
  | k + 1 => (envs i).badgeText :: badgesFrom envs (i + 1) k

/-- The number of rows among the first `k` whose submission yields a
non-empty badge text. -/
def successCount (envs : Nat → PageEnv) (k : Nat) : Nat :=
  ((badgesFrom envs 0 k).filter (fun b => !(b == ""))).length

/-- The file paths the per-row loop writes for the given badge texts, in
write order: image, plain PDF, with-robot-image PDF for each row. -/
def writes : List String → List String
  | [] => []
  | n :: rest => imgPath n :: pdfPath n :: pdf2Path n :: writes rest

/-- Apply a sequence of file writes to a file set (overwrite on collision). -/
def applyWrites : List String → List String → List String
  | fls, [] => fls
  | fls, w :: ws => applyWrites (fsInsert fls w) ws

/-- One-row order table used in the C3 counterexample runs. -/
def rowsOne : List OrderRow := [row0]

/-- Page environments where every submission succeeds with badge "1". -/
def envsBadge1 : Nat → PageEnv := fun _ => envOK1

/-- Page environments where every submission completes with an empty badge. -/
def envsBadgeEmpty : Nat → PageEnv := fun _ => envOKEmpty

/-- The per-row loop run from a fresh state with fuel 5. -/
def fillRun (envs : Nat → PageEnv) (rows : List OrderRow) :
    Option (FSState × List BAction × List LogEntry × Except PyError Unit) :=
  fill_the_form_and_store_receipts envs 5 rows 0 ⟨[], []⟩ [] []

/-- Number of PDF+image pairs produced by a terminating run of the loop. -/
def pairCountOfRun (envs : Nat → PageEnv) (rows : List OrderRow) : Option Nat :=
  (fillRun envs rows).map (fun r => pairCount r.1.files)

/-- Number of receipt PDFs produced by a terminating run of the loop. -/
def pdfCountOfRun (envs : Nat → PageEnv) (rows : List OrderRow) : Option Nat :=
  (fillRun envs rows).map (fun r => (r.1.files.filter isReceiptPdf).length)

/-- The concrete state after the one-row all-success run. -/
def fillRes1 : FSState × List BAction × List LogEntry × Except PyError Unit :=
  (fillRun envsBadge1 rowsOne).getD (⟨[], []⟩, [], [], Except.ok ())

/-! ## Theorems about the retry helper -/

/-- Every log entry present after a call of the retry helper whose `count`
argument is within the bound was either already in the log, or is the
exhaustion error for a *numeric* row argument (because the recursive call
passes `count + 1` in the `row` position and resets `count` to 0). -/
theorem retry_log_num (env : PageEnv) :
    ∀ (fuel : Nat) (rowArg : RowArg) (count clicks : Nat) (tr : List BAction)
      (lg : List LogEntry) (e : LogEntry), count ≤ MAX_RETRIES →
      e ∈ resLog (click_order_button_with_retry env fuel rowArg count clicks tr lg) →
      e ∈ lg ∨ ∃ k, e = LogEntry.errorClickRetry (RowArg.num k) := by
  intro fuel
  induction fuel with
  | zero =>
    intro rowArg count clicks tr lg e _ hmem
    simp [click_order_button_with_retry, resLog] at hmem
  | succ n ih =>
    intro rowArg count clicks tr lg e hc hmem
    have hng : ¬ count > MAX_RETRIES := Nat.not_lt.mpr hc
    simp only [click_order_button_with_retry, if_neg hng] at hmem
    by_cases hv : env.alertVisible (clicks + 1) = true
    · rw [if_pos hv] at hmem
      exact ih (RowArg.num (count + 1)) 0 (clicks + 1)
        (tr ++ [BAction.click orderButtonSel]) lg e (Nat.zero_le _) hmem
    · rw [if_neg hv] at hmem
      exact Or.inl hmem

/-- C1, part of the `code_bug` record: evaluated on the two scenarios of the
claim.  With the danger alert visible after each of the first three clicks
and absent after the fourth, the helper performs exactly 4 clicks, logs
nothing and returns.  With the alert visible after every click, the helper
does not return within 50 recursive activations (and by
`c9_unbounded_recursion` within any number): contrary to the claim, there is
no run with exactly `MAX_RETRIES + 1` clicks, no error is logged, and control
never returns, because the recursive call leaves `count` at 0. -/
theorem c1_bounded_retry_eval :
    click_order_button_with_retry env134 10 (RowArg.row row0) 0 0 [] [] =
      some (4, List.replicate 4 (BAction.click orderButtonSel), []) ∧
    click_order_button_with_retry envAlways 50 (RowArg.row row0) 0 0 [] [] = none :=
  ⟨rfl, rfl⟩

/-- C2: the recursive call of `click_order_button_with_retry` passes
`count + 1` in the `row` position (leaving `count` at its default 0), and
consequently no error logged during a call that starts from an actual order
row and the default count ever identifies that row. -/
theorem c2_recursion_drops_row :
    (∀ (env : PageEnv) (fuel : Nat) (rowArg : RowArg) (count clicks : Nat)
        (tr : List BAction) (lg : List LogEntry),
      count ≤ MAX_RETRIES → env.alertVisible (clicks + 1) = true →
      click_order_button_with_retry env (fuel + 1) rowArg count clicks tr lg =
        click_order_button_with_retry env fuel (RowArg.num (count + 1)) 0 (clicks + 1)
          (tr ++ [BAction.click orderButtonSel]) lg) ∧
    (∀ (env : PageEnv) (fuel : Nat) (r : OrderRow) (tr : List BAction),
      LogEntry.errorClickRetry (RowArg.row r) ∉
        resLog (click_order_button_with_retry env fuel (RowArg.row r) 0 0 tr [])) := by
  constructor
  · intro env fuel rowArg count clicks tr lg hc hv
    have hng : ¬ count > MAX_RETRIES := Nat.not_lt.mpr hc
    simp only [click_order_button_with_retry, if_neg hng, if_pos hv]
  · intro env fuel r tr hmem
    rcases retry_log_num env fuel (RowArg.row r) 0 0 tr [] _ (Nat.zero_le _) hmem with h | ⟨k, hk⟩
    · simp at h
    · exact RowArg.noConfusion (LogEntry.errorClickRetry.inj hk)

/-- Witness for C2 at concrete inputs. -/
theorem c2_recursion_drops_row_witness :
    (click_order_button_with_retry envAlways 3 (RowArg.row row0) 0 0 [] [] =
      click_order_button_with_retry envAlways 2 (RowArg.num 1) 0 1
        [BAction.click orderButtonSel] []) ∧
    (LogEntry.errorClickRetry (RowArg.row row0) ∉
      resLog (click_order_button_with_retry envAlways 5 (RowArg.row row0) 0 0 [] [])) :=
  ⟨c2_recursion_drops_row.1 envAlways 2 (RowArg.row row0) 0 0 [] [] (by decide) rfl,
   c2_recursion_drops_row.2 envAlways 5 row0 []⟩

/-- C9: whenever the danger alert is visible after every click, any call of
the retry helper whose `count` is within the bound — in particular the
program's call with the default `count = 0`, and every recursive call, which
resets `count` to 0 — never returns, for any recursion depth: the guard
`count > MAX_RETRIES` is never satisfied because the incremented value is
bound to the `row` parameter instead of `count`. -/
theorem c9_unbounded_recursion :
    ∀ (env : PageEnv), (∀ k, env.alertVisible k = true) →
    ∀ (fuel : Nat) (rowArg : RowArg) (count clicks : Nat) (tr : List BAction)
      (lg : List LogEntry), count ≤ MAX_RETRIES →
      click_order_button_with_retry env fuel rowArg count clicks tr lg = none := by
  intro env halert fuel
  induction fuel with
  | zero => intro rowArg count clicks tr lg _; rfl
  | succ n ih =>
    intro rowArg count clicks tr lg hc
    have hng : ¬ count > MAX_RETRIES := Nat.not_lt.mpr hc
    simp only [click_order_button_with_retry, if_neg hng, if_pos (halert (clicks + 1))]
    exact ih (RowArg.num (count + 1)) 0 (clicks + 1)
      (tr ++ [BAction.click orderButtonSel]) lg (Nat.zero_le _)

/-- Witness for C9 at concrete inputs. -/
theorem c9_unbounded_recursion_witness :
    (∀ k, envAlways.alertVisible k = true) ∧ 0 ≤ MAX_RETRIES ∧
    click_order_button_with_retry envAlways 5 (RowArg.num 1) 0 0 [] [] = none :=
  ⟨fun _ => rfl, Nat.zero_le _,
   c9_unbounded_recursion envAlways (fun _ => rfl) 5 (RowArg.num 1) 0 0 [] []
     (Nat.zero_le _)⟩

/-! ## Theorems about the whole pipeline -/

/-- The per-row loop either succeeds or propagates the browser error injected
while processing a row; in particular it never produces the cleanup-internal
`rmtreeError`. -/
theorem fill_outcome (envs : Nat → PageEnv) (fuel : Nat) :
    ∀ (rows : List OrderRow) (i : Nat) (fs : FSState) (tr : List BAction)
      (lg : List LogEntry) (res : FSState × List BAction × List LogEntry × Except PyError Unit),
      fill_the_form_and_store_receipts envs fuel rows i fs tr lg = some res →
      res.2.2.2 = Except.ok () ∨ res.2.2.2 = Except.error PyError.browserError := by
  intro rows
  induction rows with
  | nil =>
    intro i fs tr lg res h
    simp only [fill_the_form_and_store_receipts] at h
    cases h
    exact Or.inl rfl
  | cons row rest ih =>
    intro i fs tr lg res h
    simp only [fill_the_form_and_store_receipts] at h
    split at h
    · cases h
      exact Or.inr rfl
    · split at h
      · cases h
      · exact ih _ _ _ _ _ h

/-- Every terminating run's result comes from the `finally` wrapper `finish`,
with an outcome that is success or one of the three try-block exceptions. -/
theorem run_shape (env : RunEnv) (res : RunResult) :
    order_robots_from_RobotSpareBin env = some res →
    ∃ fs tr lg zip archiveFs outcome,
      res = finish env fs tr lg zip archiveFs outcome ∧
      (outcome = Except.ok () ∨ outcome = Except.error PyError.httpError ∨
       outcome = Except.error PyError.browserError ∨
       outcome = Except.error PyError.archiveError) := by
  intro h
  unfold order_robots_from_RobotSpareBin at h
  split at h
  · next e he =>
    cases h
    refine ⟨_, _, _, _, _, _, rfl, Or.inr (Or.inl ?_)⟩
    unfold get_orders at he
    split at he
    · cases he
    · cases he
      rfl
  · next rows hrows =>
    split at h
    · cases h
    · next fs tr lg e hfill =>
      cases h
      refine ⟨_, _, _, _, _, _, rfl, ?_⟩
      rcases fill_outcome env.pageEnvs env.fuel rows 0 ⟨[], []⟩ [] [] _ hfill with
        hok | herr
      · exact absurd hok (by simp)
      · simp only at herr
        rw [herr]
        exact Or.inr (Or.inr (Or.inl rfl))
    · next fs tr lg hfill =>
      split at h
      · cases h
        exact ⟨_, _, _, _, _, _, rfl, Or.inr (Or.inr (Or.inr rfl))⟩
      · cases h
        exact ⟨_, _, _, _, _, _, rfl, Or.inl rfl⟩

/-- When the deletion does not raise, `cleanup` guarantees the `temp`
directory is gone. -/
theorem cleanup_removes (env : RunEnv) (fs : FSState) (lg : List LogEntry) :
    env.rmtreeFails = false → "temp" ∉ (cleanup env fs lg).1.dirs := by
  intro hrm
  unfold cleanup
  split
  · rw [hrm]
    simp only [Bool.false_eq_true, if_false, removeTemp]
    intro hmem
    have := List.of_mem_filter hmem
    simp at this
  · next hnotin => exact hnotin

/-- When the deletion raises and `temp` existed, `cleanup` leaves the
filesystem unchanged and logs the cleanup error. -/
theorem cleanup_logs_error (env : RunEnv) (fs : FSState) (lg : List LogEntry) :
    env.rmtreeFails = true → "temp" ∈ (cleanup env fs lg).1.dirs →
    LogEntry.errorCleanup ∈ (cleanup env fs lg).2 := by
  intro hrm hmem
  by_cases hin : "temp" ∈ fs.dirs
  · simp [cleanup, hin, hrm]
  · simp [cleanup, hin] at hmem

/-- C5: if the HTTP GET of the order-list URL returns a non-2xx status, the
run fails with the propagated `HTTPError` before any browser interaction:
the result is exactly `fetchFailResult`, whose trace is empty, whose
filesystem holds no file, and which has no archive. -/
theorem c5_fetch_failure (env : RunEnv) (h : is2xx env.httpStatus = false) :
    order_robots_from_RobotSpareBin env = some fetchFailResult ∧
    fetchFailResult.trace = [] ∧ fetchFailResult.fs.files = [] ∧
    fetchFailResult.zip = none ∧ fetchFailResult.archiveFs = none ∧
    fetchFailResult.outcome = Except.error PyError.httpError := by
  refine ⟨?_, rfl, rfl, rfl, rfl, rfl⟩
  unfold order_robots_from_RobotSpareBin get_orders
  rw [h]
  simp [finish, cleanup, fetchFailResult]

/-- Witness for C5: HTTP 500. -/
theorem c5_fetch_failure_witness :
    is2xx env500.httpStatus = false ∧
    order_robots_from_RobotSpareBin env500 = some fetchFailResult :=
  ⟨rfl, (c5_fetch_failure env500 rfl).1⟩

/-- C6: on every terminating run — success, fetch failure, a browser error in
the per-row loop, or an archive failure — `cleanup` is invoked; an error
raised by the deletion is never the propagated outcome, and when the deletion
raises with `temp` present the cleanup error is logged. -/
theorem c6_cleanup_every_path (env : RunEnv) (res : RunResult) :
    order_robots_from_RobotSpareBin env = some res →
    res.cleanupInvoked = true ∧
    res.outcome ≠ Except.error PyError.rmtreeError ∧
    (env.rmtreeFails = true → "temp" ∈ res.fs.dirs →
      LogEntry.errorCleanup ∈ res.log) := by
  intro h
  obtain ⟨fs, tr, lg, zip, archiveFs, outcome, rfl, houtcome⟩ := run_shape env res h
  refine ⟨rfl, ?_, ?_⟩
  · rcases houtcome with h1 | h1 | h1 | h1 <;> rw [h1] <;> simp [finish]
  · intro hrm hmem
    exact cleanup_logs_error env fs lg hrm hmem

/-- Witness for C6: a run whose cleanup deletion raises. -/
theorem c6_cleanup_every_path_witness :
    order_robots_from_RobotSpareBin envTempRemains = some (runOf envTempRemains) ∧
    (runOf envTempRemains).cleanupInvoked = true ∧
    (runOf envTempRemains).outcome ≠ Except.error PyError.rmtreeError ∧
    (envTempRemains.rmtreeFails = true → "temp" ∈ (runOf envTempRemains).fs.dirs →
      LogEntry.errorCleanup ∈ (runOf envTempRemains).log) :=
  ⟨rfl, c6_cleanup_every_path envTempRemains (runOf envTempRemains) rfl⟩

/-- C7, counterexample: a run in which `shutil.rmtree("temp")` raises
terminates with the `temp` directory still existing, so it is not true that
after every run the temporary directory does not exist. -/
theorem c7_counterexample :
    order_robots_from_RobotSpareBin envTempRemains = some (runOf envTempRemains) ∧
    "temp" ∈ (runOf envTempRemains).fs.dirs := by
  exact ⟨rfl, by decide⟩

/-- C7, amended: after every terminating run in which the deletion of the
temporary tree does not raise, the `temp` directory does not exist. -/
theorem c7_amended (env : RunEnv) (res : RunResult) :
    order_robots_from_RobotSpareBin env = some res →
    env.rmtreeFails = false → "temp" ∉ res.fs.dirs := by
  intro h hrm
  obtain ⟨fs, tr, lg, zip, archiveFs, outcome, rfl, -⟩ := run_shape env res h
  exact cleanup_removes env fs lg hrm

/-- Witness for C7 (amended) on a fully successful run. -/
theorem c7_amended_witness :
    order_robots_from_RobotSpareBin envRunOK = some (runOf envRunOK) ∧
    envRunOK.rmtreeFails = false ∧ "temp" ∉ (runOf envRunOK).fs.dirs :=
  ⟨rfl, rfl, c7_amended envRunOK (runOf envRunOK) rfl rfl⟩

/-- C4: on every terminating run whose archive step does not itself raise and
was reached (there is a filesystem snapshot at archive time), the produced
ZIP's member list is exactly the files of that snapshot that are `*.pdf`
files under `temp/receipts` (searched recursively): every such PDF is a
member and nothing else is. -/
theorem c4_zip_members (env : RunEnv) (res : RunResult) (fsA : FSState) :
    order_robots_from_RobotSpareBin env = some res →
    env.archiveRaises = false → res.archiveFs = some fsA →
    res.zip = some (fsA.files.filter isReceiptPdf) ∧
    (∀ p, p ∈ fsA.files.filter isReceiptPdf ↔
      p ∈ fsA.files ∧ strStarts p "temp/receipts/" = true ∧
        strEnds p ".pdf" = true) := by
  intro h har hsnap
  constructor
  · unfold order_robots_from_RobotSpareBin at h
    split at h
    · cases h
      cases hsnap
    · split at h
      · cases h
      · cases h
        cases hsnap
      · split at h
        · next har2 =>
          rw [har] at har2
          cases har2
        · cases h
          simp only [finish] at hsnap ⊢
          cases hsnap
          rfl
  · intro p
    rw [List.mem_filter]
    unfold isReceiptPdf
    rw [Bool.and_eq_true]

/-- Witness for C4 on a successful one-row run. -/
theorem c4_zip_members_witness :
    order_robots_from_RobotSpareBin envRunOK = some (runOf envRunOK) ∧
    envRunOK.archiveRaises = false ∧
    (runOf envRunOK).archiveFs = some ((runOf envRunOK).archiveFs.getD ⟨[], []⟩) ∧
    (runOf envRunOK).zip =
      some (((runOf envRunOK).archiveFs.getD ⟨[], []⟩).files.filter isReceiptPdf) :=
  ⟨rfl, rfl, rfl,
   (c4_zip_members envRunOK (runOf envRunOK)
     ((runOf envRunOK).archiveFs.getD ⟨[], []⟩) rfl rfl rfl).1⟩

/-- C10: when the fetch succeeds with a zero-row order table (and the archive
library call does not raise), no browser action occurs, no temporary
directory is ever created, and `archive_receipts` is still invoked — on a
filesystem in which the `temp/receipts` directory does not exist — producing
an empty ZIP. -/
theorem c10_zero_rows (env : RunEnv) :
    is2xx env.httpStatus = true → env.rows = [] → env.archiveRaises = false →
    order_robots_from_RobotSpareBin env = some emptyOrdersResult ∧
    emptyOrdersResult.trace = [] ∧
    emptyOrdersResult.archiveFs = some ⟨[], []⟩ ∧
    "temp/receipts" ∉ (FSState.mk [] []).dirs ∧
    "temp" ∉ emptyOrdersResult.fs.dirs ∧
    emptyOrdersResult.zip = some [] := by
  intro hok hrows har
  refine ⟨?_, rfl, rfl, by simp, by simp [emptyOrdersResult], rfl⟩
  unfold order_robots_from_RobotSpareBin get_orders
  rw [hok, hrows, har]
  simp [fill_the_form_and_store_receipts, archive_receipts, archive_folder_with_zip,
    finish, cleanup, fsInsert, emptyOrdersResult]

/-- Witness for C10 at the concrete zero-row environment. -/
theorem c10_zero_rows_witness :
    is2xx envNoRows.httpStatus = true ∧ envNoRows.rows = [] ∧
    envNoRows.archiveRaises = false ∧
    order_robots_from_RobotSpareBin envNoRows = some emptyOrdersResult :=
  ⟨rfl, rfl, rfl, (c10_zero_rows envNoRows rfl rfl rfl).1⟩

/-- The retry helper only clicks the submit button: it adds no field-setting
action to the trace. -/
theorem retry_fieldActions (env : PageEnv) :
    ∀ (fuel : Nat) (rowArg : RowArg) (count clicks : Nat) (tr : List BAction)
      (lg : List LogEntry) (clicks' : Nat) (tr' : List BAction) (lg' : List LogEntry),
      click_order_button_with_retry env fuel rowArg count clicks tr lg =
        some (clicks', tr', lg') →
      fieldActions tr' = fieldActions tr := by
  intro fuel
  induction fuel with
  | zero => intro _ _ _ _ _ _ _ _ h; cases h
  | succ n ih =>
    intro rowArg count clicks tr lg clicks' tr' lg' h
    simp only [click_order_button_with_retry] at h
    split at h
    · cases h
      simp [fieldActions, List.filter_append, BAction.isFieldSet]
    · split at h
      · have := ih (RowArg.num (count + 1)) 0 (clicks + 1)
          (tr ++ [BAction.click orderButtonSel]) lg clicks' tr' lg' h
        rw [this]
        simp [fieldActions, List.filter_append, BAction.isFieldSet]
      · cases h
        simp [fieldActions, List.filter_append, BAction.isFieldSet]

/-- C8: on the CSV row with Head "2", Body "3", Legs "4", Address
"Evergreen 123", every terminating run of the form driver sets exactly four
fields — head "2" in the head dropdown, the `id-body-3` radio, "4" in the
legs input, "Evergreen 123" in the address input — and returns as order
identifier exactly the text of the success badge. -/
theorem c8_form_fields (env : PageEnv) (fuel : Nat) (num : String)
    (tr : List BAction) (lg : List LogEntry) :
    fill_the_form_for_one_order env fuel row8 [] [] = some (num, tr, lg) →
    num = env.badgeText ∧
    fieldActions tr =
      [BAction.selectOption "//select[@id=\x27head\x27]" "2",
       BAction.check "//input[@id=\x27id-body-3\x27]",
       BAction.fill "//div[contains(label, \x27Legs\x27)]//input" "4",
       BAction.fill "//input[@id=\x27address\x27]" "Evergreen 123"] := by
  intro h
  unfold fill_the_form_for_one_order at h
  simp only [] at h
  split at h
  · cases h
  · rename_i clicks0 tr0 lg0 hretry
    cases h
    refine ⟨rfl, ?_⟩
    have h2 := retry_fieldActions env fuel _ _ _ _ _ _ _ _ hretry
    simp only [fieldActions, List.filter_append] at h2 ⊢
    rw [h2]
    rfl

/-- Witness for C8 at a concrete page environment. -/
theorem c8_form_fields_witness :
    fill_the_form_for_one_order env8 3 row8 [] [] =
      some (run8.1, run8.2.1, run8.2.2) ∧
    run8.1 = env8.badgeText ∧
    fieldActions run8.2.1 =
      [BAction.selectOption "//select[@id=\x27head\x27]" "2",
       BAction.check "//input[@id=\x27id-body-3\x27]",
       BAction.fill "//div[contains(label, \x27Legs\x27)]//input" "4",
       BAction.fill "//input[@id=\x27address\x27]" "Evergreen 123"] :=
  ⟨rfl, c8_form_fields env8 3 run8.1 run8.2.1 run8.2.2 rfl⟩

/-! ## Theorems about the artifacts of a run -/

/-- Recovering the order number from an image path inverts `imgPath`. -/
theorem imgOrder_imgPath (n : String) : imgOrder (imgPath n) = n := by
  unfold imgOrder imgPath
  have h1 : ("temp/receipts_images/robot_" ++ n ++ ".png").data =
      ("temp/receipts_images/robot_" : String).data ++
        (n.data ++ (".png" : String).data) := by
    rw [String.data_append, String.data_append, List.append_assoc]
  rw [h1]
  have h27 : ("temp/receipts_images/robot_" : String).data.length = 27 := rfl
  rw [← h27, List.drop_left]
  have hlen : (n.data ++ (".png" : String).data).length - 4 = n.data.length := by
    rw [List.length_append]
    have h4 : (".png" : String).data.length = 4 := rfl
    rw [h4, Nat.add_sub_cancel]
  rw [hlen, List.take_left]

/-- The map from order number to image path is injective. -/
theorem imgPath_injective : Function.Injective imgPath := by
  intro a b h
  rw [← imgOrder_imgPath a, ← imgOrder_imgPath b, h]

/-- A plain receipt PDF path never has the shape of an image path: the two
differ at character 13 (`/` versus `_`). -/
theorem pdfPath_ne_imgPath (n m : String) : pdfPath n ≠ imgPath m := by
  intro h
  have h1 : (pdfPath n).data[13]? = some '/' := by
    unfold pdfPath
    rw [String.data_append, String.data_append, List.append_assoc]
    rw [List.getElem?_append_left (by decide)]
    rfl
  have h2 : (imgPath m).data[13]? = some '_' := by
    unfold imgPath
    rw [String.data_append, String.data_append, List.append_assoc]
    rw [List.getElem?_append_left (by decide)]
    rfl
  rw [h, h2] at h1
  cases h1

/-- A with-robot-image receipt PDF path never has the shape of an image
path. -/
theorem pdf2Path_ne_imgPath (n m : String) : pdf2Path n ≠ imgPath m := by
  intro h
  have h1 : (pdf2Path n).data[13]? = some '/' := by
    unfold pdf2Path
    rw [String.data_append, String.data_append, List.append_assoc]
    rw [List.getElem?_append_left (by decide)]
    rfl
  have h2 : (imgPath m).data[13]? = some '_' := by
    unfold imgPath
    rw [String.data_append, String.data_append, List.append_assoc]
    rw [List.getElem?_append_left (by decide)]
    rfl
  rw [h, h2] at h1
  cases h1

/-- Image paths are recognised as image files. -/
theorem isImgFile_imgPath (n : String) : isImgFile (imgPath n) = true := by
  unfold isImgFile
  rw [imgOrder_imgPath]
  exact beq_self_eq_true _

/-- Plain receipt PDF paths are not recognised as image files. -/
theorem isImgFile_pdfPath (n : String) : isImgFile (pdfPath n) = false := by
  unfold isImgFile
  rw [beq_eq_false_iff_ne]
  exact pdfPath_ne_imgPath n _

/-- With-robot-image receipt PDF paths are not recognised as image files. -/
theorem isImgFile_pdf2Path (n : String) : isImgFile (pdf2Path n) = false := by
  unfold isImgFile
  rw [beq_eq_false_iff_ne]
  exact pdf2Path_ne_imgPath n _

/-- Membership after a single write. -/
theorem mem_fsInsert (ps : List String) (q p : String) :
    p ∈ fsInsert ps q ↔ p ∈ ps ∨ p = q := by
  unfold fsInsert
  split
  · next hq =>
    constructor
    · exact Or.inl
    · rintro (h | rfl)
      · exact h
      · exact hq
  · simp

/-- A write preserves freedom from duplicates. -/
theorem nodup_fsInsert (ps : List String) (q : String) (h : ps.Nodup) :
    (fsInsert ps q).Nodup := by
  unfold fsInsert
  split
  · exact h
  · next hq =>
    rw [List.nodup_append]
    exact ⟨h, List.nodup_singleton q, by
      intro a ha hb
      rw [List.mem_singleton] at hb
      subst hb
      exact hq ha⟩

/-- Membership after a sequence of writes. -/
theorem mem_applyWrites :
    ∀ (ws fls : List String) (p : String),
      p ∈ applyWrites fls ws ↔ p ∈ fls ∨ p ∈ ws := by
  intro ws
  induction ws with
  | nil => intro fls p; simp [applyWrites]
  | cons w ws ih =>
    intro fls p
    show p ∈ applyWrites (fsInsert fls w) ws ↔ _
    rw [ih, mem_fsInsert, List.mem_cons]
    tauto

/-- A sequence of writes preserves freedom from duplicates. -/
theorem nodup_applyWrites :
    ∀ (ws fls : List String), fls.Nodup → (applyWrites fls ws).Nodup := by
  intro ws
  induction ws with
  | nil => intro fls h; exact h
  | cons w ws ih => intro fls h; exact ih (fsInsert fls w) (nodup_fsInsert fls w h)

/-- The writes of a badge list are exactly the three artifact paths of each
badge. -/
theorem mem_writes :
    ∀ (bs : List String) (p : String),
      p ∈ writes bs ↔
        ∃ n, n ∈ bs ∧ (p = imgPath n ∨ p = pdfPath n ∨ p = pdf2Path n) := by
  intro bs
  induction bs with
  | nil => intro p; simp [writes]
  | cons b bs ih =>
    intro p
    simp only [writes, List.mem_cons, ih]
    constructor
    · rintro (rfl | rfl | rfl | ⟨n, hn, hp⟩)
      · exact ⟨b, Or.inl rfl, Or.inl rfl⟩
      · exact ⟨b, Or.inl rfl, Or.inr (Or.inl rfl)⟩
      · exact ⟨b, Or.inl rfl, Or.inr (Or.inr rfl)⟩
      · exact ⟨n, Or.inr hn, hp⟩
    · rintro ⟨n, rfl | hn, hp⟩
      · rcases hp with rfl | rfl | rfl
        · exact Or.inl rfl
        · exact Or.inr (Or.inl rfl)
        · exact Or.inr (Or.inr (Or.inl rfl))
      · exact Or.inr (Or.inr (Or.inr ⟨n, hn, hp⟩))

/-- The badge list of `k` rows has length `k`. -/
theorem badgesFrom_length (envs : Nat → PageEnv) :
    ∀ (k i : Nat), (badgesFrom envs i k).length = k := by
  intro k
  induction k with
  | zero => intro i; rfl
  | succ k ih => intro i; simp [badgesFrom, ih]

/-- A terminating call of the form driver returns the badge text of its page
environment. -/
theorem fill_form_badge (env : PageEnv) (fuel : Nat) (row : OrderRow)
    (tr : List BAction) (lg : List LogEntry) (num : String)
    (tr' : List BAction) (lg' : List LogEntry) :
    fill_the_form_for_one_order env fuel row tr lg = some (num, tr', lg') →
    num = env.badgeText := by
  intro h
  unfold fill_the_form_for_one_order at h
  simp only [] at h
  split at h
  · cases h
  · cases h
    rfl

/-- Characterisation of the files after the per-row loop completes without an
exception: starting files plus the image and the two PDFs of each processed
badge, in write order. -/
theorem fill_files (envs : Nat → PageEnv) (fuel : Nat) :
    ∀ (rows : List OrderRow) (i : Nat) (fs : FSState) (tr : List BAction)
      (lg : List LogEntry)
      (out : FSState × List BAction × List LogEntry × Except PyError Unit),
      fill_the_form_and_store_receipts envs fuel rows i fs tr lg = some out →
      out.2.2.2 = Except.ok () →
      out.1.files = applyWrites fs.files (writes (badgesFrom envs i rows.length)) := by
  intro rows
  induction rows with
  | nil =>
    intro i fs tr lg out h _
    simp only [fill_the_form_and_store_receipts] at h
    cases h
    rfl
  | cons row rest ih =>
    intro i fs tr lg out h hok
    simp only [fill_the_form_and_store_receipts] at h
    split at h
    · cases h
      simp at hok
    · split at h
      · cases h
      · rename_i num tr0 lg0 hform
        have hnum := fill_form_badge (envs i) fuel row _ lg num tr0 lg0 hform
        subst hnum
        have hrec := ih (i + 1) _ _ _ out h hok
        rw [hrec]
        simp only [save_receipt_as_image, store_receipt_as_pdf, List.length_cons]
        rfl

/-- Counting the artifacts written for a duplicate-free badge list: one image
per badge, each with its with-robot-image PDF present. -/
theorem pairCount_applyWrites (badges : List String) (hnd : badges.Nodup) :
    pairCount (applyWrites [] (writes badges)) = badges.length ∧
    imageCount (applyWrites [] (writes badges)) = badges.length := by
  have hnodup : (applyWrites [] (writes badges)).Nodup :=
    nodup_applyWrites _ _ List.nodup_nil
  have hmemf : ∀ x, x ∈ applyWrites [] (writes badges) ↔ x ∈ writes badges := by
    intro x
    rw [mem_applyWrites]
    simp
  constructor
  · unfold pairCount
    have hperm : List.Perm
        ((applyWrites [] (writes badges)).filter
          (fun p => isImgFile p &&
            decide (pdf2Path (imgOrder p) ∈ applyWrites [] (writes badges))))
        (badges.map imgPath) := by
      rw [List.perm_ext_iff_of_nodup (hnodup.filter _) (hnd.map imgPath_injective)]
      intro x
      rw [List.mem_filter, List.mem_map]
      constructor
      · rintro ⟨hx, hP⟩
        rw [hmemf] at hx
        rcases (mem_writes badges x).mp hx with ⟨n, hn, rfl | rfl | rfl⟩
        · exact ⟨n, hn, rfl⟩
        · rw [Bool.and_eq_true, isImgFile_pdfPath] at hP
          cases hP.1
        · rw [Bool.and_eq_true, isImgFile_pdf2Path] at hP
          cases hP.1
      · rintro ⟨n, hn, rfl⟩
        refine ⟨(hmemf _).mpr ((mem_writes badges _).mpr ⟨n, hn, Or.inl rfl⟩), ?_⟩
        rw [Bool.and_eq_true]
        refine ⟨isImgFile_imgPath n, ?_⟩
        rw [decide_eq_true_iff, imgOrder_imgPath]
        exact (hmemf _).mpr ((mem_writes badges _).mpr ⟨n, hn, Or.inr (Or.inr rfl)⟩)
    rw [hperm.length_eq, List.length_map]
  · unfold imageCount
    have hperm : List.Perm
        ((applyWrites [] (writes badges)).filter (fun p => isImgFile p))
        (badges.map imgPath) := by
      rw [List.perm_ext_iff_of_nodup (hnodup.filter _) (hnd.map imgPath_injective)]
      intro x
      rw [List.mem_filter, List.mem_map]
      constructor
      · rintro ⟨hx, hP⟩
        rw [hmemf] at hx
        rcases (mem_writes badges x).mp hx with ⟨n, hn, rfl | rfl | rfl⟩
        · exact ⟨n, hn, rfl⟩
        · rw [isImgFile_pdfPath] at hP
          cases hP
        · rw [isImgFile_pdf2Path] at hP
          cases hP
      · rintro ⟨n, hn, rfl⟩
        exact ⟨(hmemf _).mpr ((mem_writes badges _).mpr ⟨n, hn, Or.inl rfl⟩),
          isImgFile_imgPath n⟩
    rw [hperm.length_eq, List.length_map]

/-- C3, counterexample: with one order row completing with badge "1" the run
produces two receipt PDFs, not one; and with one order row completing with an
empty badge the run produces one PDF+image pair while the number of rows with
a non-empty badge is zero — so the pair count does not equal the
non-empty-badge success count and there are two PDFs, not one, per order. -/
theorem c3_counterexample :
    pdfCountOfRun envsBadge1 rowsOne = some 2 ∧
    successCount envsBadge1 1 = 1 ∧
    pairCountOfRun envsBadgeEmpty rowsOne = some 1 ∧
    successCount envsBadgeEmpty 1 = 0 :=
  ⟨rfl, rfl, rfl, rfl⟩

/-- C3, amended: for every row whose submission completes, the loop writes
one image and two PDFs (plain and with-robot-image) named by the badge text;
when the whole loop completes without an exception and the badge texts are
pairwise distinct, the number of PDF+image pairs — like the number of images
— equals the number of rows, regardless of whether any badge is empty. -/
theorem c3_artifact_counts (envs : Nat → PageEnv) (fuel : Nat)
    (rows : List OrderRow)
    (out : FSState × List BAction × List LogEntry × Except PyError Unit) :
    fill_the_form_and_store_receipts envs fuel rows 0 ⟨[], []⟩ [] [] = some out →
    out.2.2.2 = Except.ok () →
    (badgesFrom envs 0 rows.length).Nodup →
    pairCount out.1.files = rows.length ∧
    imageCount out.1.files = rows.length ∧
    (∀ n ∈ badgesFrom envs 0 rows.length,
      imgPath n ∈ out.1.files ∧ pdfPath n ∈ out.1.files ∧
        pdf2Path n ∈ out.1.files) := by
  intro h hok hnd
  have hf := fill_files envs fuel rows 0 ⟨[], []⟩ [] [] out h hok
  rw [hf]
  obtain ⟨h1, h2⟩ := pairCount_applyWrites _ hnd
  refine ⟨?_, ?_, ?_⟩
  · rw [h1, badgesFrom_length]
  · rw [h2, badgesFrom_length]
  · intro n hn
    refine ⟨?_, ?_, ?_⟩ <;> rw [mem_applyWrites] <;> right <;>
      apply (mem_writes _ _).mpr
    · exact ⟨n, hn, Or.inl rfl⟩
    · exact ⟨n, hn, Or.inr (Or.inl rfl)⟩
    · exact ⟨n, hn, Or.inr (Or.inr rfl)⟩

/-- Witness for C3 (amended) on the concrete one-row all-success run. -/
theorem c3_artifact_counts_witness :
    fill_the_form_and_store_receipts envsBadge1 5 rowsOne 0 ⟨[], []⟩ [] [] =
      some (fillRes1.1, fillRes1.2.1, fillRes1.2.2.1, Except.ok ()) ∧
    (badgesFrom envsBadge1 0 rowsOne.length).Nodup ∧
    pairCount fillRes1.1.files = rowsOne.length :=
  ⟨rfl, by decide,
   (c3_artifact_counts envsBadge1 5 rowsOne
     (fillRes1.1, fillRes1.2.1, fillRes1.2.2.1, Except.ok ()) rfl rfl (by decide)).1⟩

end RobotOrder
